import Mathlib

/-!
Shallow embedding of the MCP chat front-end (`app.py`).

Modelling conventions:
* Python dicts with a known set of keys become structures whose fields are
  `Option`-valued (`none` = key absent).  Dict truthiness (`if server_config:`)
  is modelled over the modelled keys only.
* Streamlit display calls (`st.error`, `st.warning`, `st.info`, `st.markdown`)
  become `Msg` values collected in traces or result pairs.
* Awaited library calls become `Event` values recorded in a trace; the outcome
  of each external call (success / `asyncio.TimeoutError` / other exception)
  is supplied by an oracle, so control flow after each outcome mirrors the
  source's `try`/`except` structure.
* `asyncio.wait_for` timeouts are whole seconds in the source (5.0, 10.0,
  30.0) and are modelled as the naturals 5, 10, 30.
* The `@asynccontextmanager` generator `get_mcp_session` is modelled as a
  function returning (events before yield, yielded session, events on scope
  exit); a caller's trace is pre ++ body ++ post.  The CPython subtlety that a
  body exception is rethrown inside the generator at the yield point (athrow)
  would only change the text of error messages on one path; no property below
  depends on message text in that path, so the handlers are modelled as
  written in the source.
-/

namespace MCPChat

/-- A user-visible Streamlit output: st.error / st.warning / st.info /
st.markdown. -/
inductive Msg where
  | error (text : String)
  | warning (text : String)
  | info (text : String)
  | markdown (text : String)
  deriving Repr, DecidableEq

/-- One entry of the `mcpServers` mapping in `mcp.json`: a dict whose keys
`command`, `args`, `env` may each be present or absent. -/
structure ServerConfig where
  command : Option String
  args : Option (List String)
  env : Option (List (String × String))
  deriving Repr, DecidableEq

/-- Python dict truthiness of a server-config object, over the modelled keys:
`{}` is falsy, any dict with at least one key present is truthy. -/
def ServerConfig.isEmptyDict (c : ServerConfig) : Bool :=
  c.command.isNone && c.args.isNone && c.env.isNone

/-- The parsed `mcp.json` document: the top-level key `mcpServers` may be
present (mapping backend names to their configs, in document order) or
absent. -/
structure ConfigDoc where
  mcpServers : Option (List (String × ServerConfig))
  deriving Repr, DecidableEq

/-- `StdioServerParameters(command=..., args=..., env=...)` as built by
`create_server_parameters`. -/
structure StdioServerParameters where
  command : String
  args : List String
  env : Option (List (String × String))
  deriving Repr, DecidableEq

/-- A connected MCP `ClientSession` (opaque library object, tagged with the
parameters it was opened with). -/
structure Session where
  params : StdioServerParameters
  deriving Repr, DecidableEq

/-- The keys of an ordered mapping, in order (Python `dict.keys()`). -/
def keys (m : List (String × ServerConfig)) : List String :=
  m.map Prod.fst

/-- `server_names = ["None"] + list(mcp_config['mcpServers'].keys())`
(app.py line 230). -/
def server_names (m : List (String × ServerConfig)) : List String :=
  ["None"] ++ keys m

/-- `validate_server_config` (app.py lines 58-65): checks the required fields
`command`, `args` in order, displays an error and returns False at the first
missing one.  Returns the boolean result paired with the displayed
messages. -/
def validate_server_config (config : ServerConfig) : Bool × List Msg :=
  if config.command.isNone then
    (false, [Msg.error "Missing required field in server configuration: command"])
  else if config.args.isNone then
    (false, [Msg.error "Missing required field in server configuration: args"])
  else
    (true, [])

/-- `create_server_parameters` (app.py lines 67-76): raises
`ValueError("Invalid server configuration")` when validation fails, otherwise
builds `StdioServerParameters` with `env = server_config.get('env')` (so `env`
defaults to absent).  The raise is modelled as `Except.error`.  The inner
fallback is unreachable: validation success guarantees both fields are
present. -/
def create_server_parameters (server_config : ServerConfig) :
    Except String StdioServerParameters × List Msg :=
  match validate_server_config server_config with
  | (false, msgs) => (Except.error "Invalid server configuration", msgs)
  | (true, msgs) =>
    match server_config.command, server_config.args with
    | some c, some a =>
      (Except.ok { command := c, args := a, env := server_config.env }, msgs)
    | _, _ => (Except.error "Invalid server configuration", msgs)

/-- The state of the configuration file `mcp.json` as seen by
`load_mcp_config`: missing, present but not valid JSON (`json.load` raises
with some message), or parsed into a document. -/
inductive ConfigFile where
  | missing
  | invalidJson (msg : String)
  | valid (doc : ConfigDoc)
  deriving Repr, DecidableEq

/-- Result of `load_mcp_config`: either the parsed document is returned, or
`st.stop()` terminated the script after displaying the given messages. -/
inductive LoadResult where
  | ok (doc : ConfigDoc)
  | stopped (msgs : List Msg)
  deriving Repr, DecidableEq

/-- `load_mcp_config` (app.py lines 33-56): raises FileNotFoundError when the
file is missing, propagates `json.JSONDecodeError`, raises ValueError when the
parsed document lacks the `mcpServers` key; each of the three handlers
displays an error and calls `st.stop()`. -/
def load_mcp_config : ConfigFile → LoadResult
  | ConfigFile.missing =>
    LoadResult.stopped [Msg.error "Config file not found: mcp.json"]
  | ConfigFile.invalidJson e =>
    LoadResult.stopped [Msg.error ("Invalid JSON format: " ++ e)]
  | ConfigFile.valid doc =>
    match doc.mcpServers with
    | none =>
      LoadResult.stopped
        [Msg.error "Configuration file error: Config file does not contain 'mcpServers' key."]
    | some _ => LoadResult.ok doc

/-- Whether `load_mcp_config` terminates the script (`st.stop`) on the given
file state. -/
def stops (cf : ConfigFile) : Bool :=
  match load_mcp_config cf with
  | LoadResult.stopped _ => true
  | LoadResult.ok _ => false

/-- The server-parameter computation of `main` (app.py lines 234-242):
`server_config` is `{}` when "None" is selected, otherwise the selected
entry; when `server_config` is truthy, `create_server_parameters` is tried
and a `ValueError` is caught and displayed, leaving the parameters `None`.
The `getD` default is unreachable in `main`, where the selection always comes
from `server_names`. -/
def main_select_server_params (mcpServers : List (String × ServerConfig))
    (selected_server : String) : Option StdioServerParameters × List Msg :=
  let server_config : ServerConfig :=
    if selected_server = "None" then ⟨none, none, none⟩
    else (mcpServers.lookup selected_server).getD ⟨none, none, none⟩
  if server_config.isEmptyDict then (none, [])
  else
    match create_server_parameters server_config with
    | (Except.ok p, msgs) => (some p, msgs)
    | (Except.error e, msgs) =>
      (none, msgs ++ [Msg.error ("Server configuration error: " ++ e)])

/-- Outcome of an awaited library call: normal return, `asyncio.TimeoutError`,
or some other exception carrying its message. -/
inductive StepOutcome where
  | ok
  | timeout
  | exn (msg : String)
  deriving Repr, DecidableEq

/-- Oracle for `get_mcp_session`: outcome of entering
`stdio_client`/`ClientSession`, and outcome of
`asyncio.wait_for(session.initialize(), timeout=10.0)`. -/
structure SessionOracle where
  openOutcome : StepOutcome
  initOutcome : StepOutcome
  deriving Repr, DecidableEq

/-- Outcome of one capability-listing call; on success it carries the listed
items as (name, optional description) pairs (for resources: (uri, optional
name)). -/
inductive ListOutcome where
  | ok (items : List (String × Option String))
  | timeout
  | exn (msg : String)
  deriving Repr, DecidableEq

/-- Oracle for `safe_inspect_server`: outcomes of list_prompts,
list_resources, list_tools. -/
structure InspectOracle where
  promptsOutcome : ListOutcome
  resourcesOutcome : ListOutcome
  toolsOutcome : ListOutcome
  deriving Repr, DecidableEq

/-- One `contents` entry sent to the generate API; the source wraps the text
as `parts: [{'text': ...}]`, modelled as the text itself. -/
structure Content where
  role : String
  text : String
  deriving Repr, DecidableEq

/-- Observable events: awaited library calls (with the `asyncio.wait_for`
timeout they are wrapped in, where the source wraps them), context-manager
scope transitions, and displayed messages. -/
inductive Event where
  | openConnection
  | openSession
  | initCall (timeout : Nat)
  | listPrompts (timeout : Nat)
  | listResources (timeout : Nat)
  | listTools (timeout : Nat)
  | generate (timeout : Nat) (contents : List Content) (tools : Option (List Session))
  | closeSession
  | closeConnection
  | display (m : Msg)
  deriving Repr, DecidableEq

/-- Events that are calls into the library / scope transitions, as opposed to
displayed messages. -/
def isCall : Event → Bool
  | Event.display _ => false
  | _ => true

/-- Checks that an event carries the fixed timeout the source assigns to its
call site: 10.0 for session initialization, 5.0 for each capability listing,
30.0 for model generation. -/
def eventTimeoutOk : Event → Bool
  | Event.initCall t => t == 10
  | Event.listPrompts t => t == 5
  | Event.listResources t => t == 5
  | Event.listTools t => t == 5
  | Event.generate t _ _ => t == 30
  | _ => true

/-- `get_mcp_session` (app.py lines 123-140), an `@asynccontextmanager`
generator, as (events before the yield, yielded session, events on normal
scope exit).  With no parameters it yields None immediately.  Otherwise it
enters `stdio_client` and `ClientSession`, awaits initialization under a 10s
timeout, and yields the session; on `asyncio.TimeoutError` the `async with`
blocks unwind (closing session and connection) before the handler displays
"MCP server connection timed out" and yields None; any other exception is
displayed as "Failed to connect to MCP server: ..." and None is yielded.  A
failure while entering the connection produces no open/close events. -/
def get_mcp_session (server_params : Option StdioServerParameters)
    (sess : SessionOracle) : List Event × Option Session × List Event :=
  match server_params with
  | none => ([], none, [])
  | some p =>
    match sess.openOutcome with
    | StepOutcome.ok =>
      match sess.initOutcome with
      | StepOutcome.ok =>
        ([Event.openConnection, Event.openSession, Event.initCall 10],
         some { params := p },
         [Event.closeSession, Event.closeConnection])
      | StepOutcome.timeout =>
        ([Event.openConnection, Event.openSession, Event.initCall 10,
          Event.closeSession, Event.closeConnection,
          Event.display (Msg.error "MCP server connection timed out")],
         none, [])
      | StepOutcome.exn e =>
        ([Event.openConnection, Event.openSession, Event.initCall 10,
          Event.closeSession, Event.closeConnection,
          Event.display (Msg.error ("Failed to connect to MCP server: " ++ e))],
         none, [])
    | StepOutcome.timeout =>
      ([Event.display (Msg.error "MCP server connection timed out")], none, [])
    | StepOutcome.exn e =>
      ([Event.display (Msg.error ("Failed to connect to MCP server: " ++ e))], none, [])

/-- Python `x or default` on an optional string: both absent and empty count
as falsy. -/
def orElseStr (s : Option String) (d : String) : String :=
  match s with
  | none => d
  | some t => if t = "" then d else t

/-- One prompt line rendered by `safe_inspect_server`. -/
def format_prompt_line (p : String × Option String) : String :=
  "- **" ++ p.1 ++ "**: " ++ orElseStr p.2 "No description"

/-- One resource line rendered by `safe_inspect_server`. -/
def format_resource_line (r : String × Option String) : String :=
  "- `" ++ r.1 ++ "`: " ++ orElseStr r.2 "No name"

/-- One tool line rendered by `safe_inspect_server`. -/
def format_tool_line (t : String × Option String) : String :=
  "- **" ++ t.1 ++ "**: " ++ orElseStr t.2 "No description"

/-- The Prompts section of `safe_inspect_server` (app.py lines 82-93): one
list call under a 5s timeout, then exactly one display depending on the
outcome; its own try/except confines any failure to this section. -/
def inspect_prompts (o : ListOutcome) : List Event :=
  Event.listPrompts 5 ::
    match o with
    | ListOutcome.ok items =>
      if items.isEmpty then [Event.display (Msg.info "No available prompts.")]
      else
        [Event.display
          (Msg.markdown (String.intercalate "\n" (items.map format_prompt_line)))]
    | ListOutcome.timeout =>
      [Event.display (Msg.warning "Prompt list request timed out")]
    | ListOutcome.exn e =>
      [Event.display (Msg.warning ("Unable to fetch prompt list: " ++ e))]

/-- The Resources section of `safe_inspect_server` (app.py lines 96-107). -/
def inspect_resources (o : ListOutcome) : List Event :=
  Event.listResources 5 ::
    match o with
    | ListOutcome.ok items =>
      if items.isEmpty then [Event.display (Msg.info "No available resources.")]
      else
        [Event.display
          (Msg.markdown (String.intercalate "\n" (items.map format_resource_line)))]
    | ListOutcome.timeout =>
      [Event.display (Msg.warning "Resource list request timed out")]
    | ListOutcome.exn e =>
      [Event.display (Msg.warning ("Unable to fetch resource list: " ++ e))]

/-- The Tools section of `safe_inspect_server` (app.py lines 110-121). -/
def inspect_tools (o : ListOutcome) : List Event :=
  Event.listTools 5 ::
    match o with
    | ListOutcome.ok items =>
      if items.isEmpty then [Event.display (Msg.info "No available tools.")]
      else
        [Event.display
          (Msg.markdown (String.intercalate "\n" (items.map format_tool_line)))]
    | ListOutcome.timeout =>
      [Event.display (Msg.warning "Tool list request timed out")]
    | ListOutcome.exn e =>
      [Event.display (Msg.warning ("Unable to fetch tool list: " ++ e))]

/-- `safe_inspect_server` (app.py lines 78-121): the three sections run in
order prompts, resources, tools; each has its own try/except, so a failing
section never prevents the following ones. -/
def safe_inspect_server (insp : InspectOracle) : List Event :=
  inspect_prompts insp.promptsOutcome ++ inspect_resources insp.resourcesOutcome
    ++ inspect_tools insp.toolsOutcome

/-- `initialize_session_safely` (app.py lines 199-209): returns immediately
without parameters; otherwise runs `safe_inspect_server` in the body of
`get_mcp_session` when a session was yielded. -/
def init_session_safely (server_params : Option StdioServerParameters)
    (sess : SessionOracle) (insp : InspectOracle) : List Event :=
  match server_params with
  | none => []
  | some _ =>
    let r := get_mcp_session server_params sess
    r.1 ++ (match r.2.1 with
            | some _ => safe_inspect_server insp
            | none => []) ++ r.2.2

/-- One transcript entry of `st.session_state.chat['messages']`. -/
structure ChatMessage where
  role : String
  content : String
  deriving Repr, DecidableEq

/-- The role mapping of `send_message_with_mcp` (app.py lines 151-161):
'user' stays 'user', 'assistant' becomes 'model', anything else is skipped. -/
def msg_to_content (msg : ChatMessage) : Option Content :=
  if msg.role = "user" then some { role := "user", text := msg.content }
  else if msg.role = "assistant" then some { role := "model", text := msg.content }
  else none

/-- The `contents` list sent to the generate API (app.py lines 150-167): the
role-mapped transcript followed by the current prompt as a user turn. -/
def build_contents (messages : List ChatMessage) (prompt : String) : List Content :=
  messages.filterMap msg_to_content ++ [{ role := "user", text := prompt }]

/-- Outcome of the awaited generate call: a response whose `.text` is the
given optional string (`none` models a falsy response or text), a timeout, or
another exception. -/
inductive GenOutcome where
  | ok (text : Option String)
  | timeout
  | exn (msg : String)
  deriving Repr, DecidableEq

/-- Whether `if response and response.text:` takes the success branch. -/
def genSucceeds : GenOutcome → Bool
  | GenOutcome.ok (some t) => !(t == "")
  | _ => false

/-- `send_message_with_mcp` (app.py lines 142-197): inside the
`get_mcp_session` scope it builds `contents` from the stored transcript plus
the current prompt, sets `config.tools = [session]` only when the session is
not None, awaits generation under a 30s timeout, and on a truthy response
text displays it and appends the assistant turn; an empty response only warns,
and the outer handlers display timeout/exception errors after the scope has
unwound.  The second component is the transcript after the call. -/
def send_message_with_mcp (prompt : String)
    (server_params : Option StdioServerParameters)
    (messages : List ChatMessage) (sess : SessionOracle) (gen : GenOutcome) :
    List Event × List ChatMessage :=
  let r := get_mcp_session server_params sess
  let contents := build_contents messages prompt
  let tools : Option (List Session) := r.2.1.map (fun s => [s])
  match gen with
  | GenOutcome.ok t =>
    match t with
    | some text =>
      if text = "" then
        (r.1 ++ [Event.generate 30 contents tools,
                 Event.display (Msg.warning "Received empty response.")] ++ r.2.2,
         messages)
      else
        (r.1 ++ [Event.generate 30 contents tools,
                 Event.display (Msg.markdown text)] ++ r.2.2,
         messages ++ [{ role := "assistant", content := text }])
    | none =>
      (r.1 ++ [Event.generate 30 contents tools,
               Event.display (Msg.warning "Received empty response.")] ++ r.2.2,
       messages)
  | GenOutcome.timeout =>
    (r.1 ++ [Event.generate 30 contents tools] ++ r.2.2
       ++ [Event.display (Msg.error "Response generation timed out.")],
     messages)
  | GenOutcome.exn e =>
    (r.1 ++ [Event.generate 30 contents tools] ++ r.2.2
       ++ [Event.display (Msg.error ("Error occurred while sending message: " ++ e))],
     messages)

/-- The chat-input handler of `main` (app.py lines 264-276): the user turn is
appended to the stored transcript first, then `send_message_with_mcp` runs
and reads that same transcript. -/
def main_handle_input (prompt : String)
    (server_params : Option StdioServerParameters)
    (messages : List ChatMessage) (sess : SessionOracle) (gen : GenOutcome) :
    List Event × List ChatMessage :=
  let messages1 := messages ++ [{ role := "user", content := prompt }]
  send_message_with_mcp prompt server_params messages1 sess gen

/-- Events that are the session-initialization call. -/
def isInitCallEvent : Event → Bool
  | Event.initCall _ => true
  | _ => false

/-- Events that are the prompt-listing call. -/
def isListPromptsEvent : Event → Bool
  | Event.listPrompts _ => true
  | _ => false

/-- Events that are the resource-listing call. -/
def isListResourcesEvent : Event → Bool
  | Event.listResources _ => true
  | _ => false

/-- Events that are the tool-listing call. -/
def isListToolsEvent : Event → Bool
  | Event.listTools _ => true
  | _ => false

/-- Events that are the model-generation call. -/
def isGenerateEvent : Event → Bool
  | Event.generate _ _ _ => true
  | _ => false

/-- Nothing is retried within one run: each awaited library call occurs at
most once in the trace. -/
def noRetry (evs : List Event) : Prop :=
  evs.countP isInitCallEvent ≤ 1 ∧ evs.countP isListPromptsEvent ≤ 1 ∧
    evs.countP isListResourcesEvent ≤ 1 ∧ evs.countP isListToolsEvent ≤ 1 ∧
    evs.countP isGenerateEvent ≤ 1

/-- Whether a capability-listing call failed (timed out or raised). -/
def ListOutcome.failed : ListOutcome → Bool
  | ListOutcome.timeout => true
  | ListOutcome.exn _ => true
  | ListOutcome.ok _ => false

/-- C1: for every well-formed configuration whose backend mapping has N
entries, the selection list has exactly N+1 options: the sentinel "None"
first, followed by the N backend names in the mapping's order. -/
theorem C1_server_selection_list (m : List (String × ServerConfig)) :
    (server_names m).length = m.length + 1 ∧
    (server_names m)[0]? = some "None" ∧
    ∀ i : Nat, (server_names m)[i + 1]? = (keys m)[i]? := by
  refine ⟨?_, ?_, ?_⟩
  · simp [server_names, keys]
  · simp [server_names]
  · intro i
    simp [server_names]

/-- C2 as stated is false: the backend "s" is configured as the empty object,
which is missing both required fields, yet selecting it surfaces no message
at all (the empty dict is falsy, so `main` skips validation entirely) while
leaving the parameters None. -/
theorem C2_counterexample :
    (ServerConfig.mk none none none).command = none ∧
    main_select_server_params [("s", ServerConfig.mk none none none)] "s" =
      (none, []) := by
  constructor
  · rfl
  · rfl

/-- C2 (amended): for every selected backend whose configuration object is
non-empty and missing a required field, a validation error is surfaced, a
configuration error is surfaced, and the server parameters are set to None;
with parameters None no session is opened. -/
theorem C2_missing_field_disables (m : List (String × ServerConfig))
    (name : String) (cfg : ServerConfig) (hlk : m.lookup name = some cfg)
    (hname : ¬ name = "None") (hne : cfg.isEmptyDict = false)
    (hmiss : cfg.command = none ∨ cfg.args = none) :
    (main_select_server_params m name).1 = none ∧
    (∃ f, Msg.error ("Missing required field in server configuration: " ++ f)
            ∈ (main_select_server_params m name).2) ∧
    Msg.error "Server configuration error: Invalid server configuration"
      ∈ (main_select_server_params m name).2 ∧
    ∀ sess insp, init_session_safely none sess insp = [] := by
  have hsel : (if name = "None" then (⟨none, none, none⟩ : ServerConfig)
      else (m.lookup name).getD ⟨none, none, none⟩) = cfg := by
    rw [if_neg hname, hlk]
    rfl
  have hmain : main_select_server_params m name =
      (none, [Msg.error "Missing required field in server configuration: command",
              Msg.error "Server configuration error: Invalid server configuration"]) ∨
      main_select_server_params m name =
      (none, [Msg.error "Missing required field in server configuration: args",
              Msg.error "Server configuration error: Invalid server configuration"]) := by
    rcases hc : cfg.command with _ | c
    · left
      simp [main_select_server_params, hsel, hne, create_server_parameters,
        validate_server_config, hc]
    · right
      rcases hmiss with hc2 | ha
      · rw [hc] at hc2
        cases hc2
      · simp [main_select_server_params, hsel, hne, create_server_parameters,
          validate_server_config, hc, ha]
  rcases hmain with h | h
  · exact ⟨by rw [h], ⟨"command", by rw [h]; decide⟩, by rw [h]; decide,
      fun sess insp => rfl⟩
  · exact ⟨by rw [h], ⟨"args", by rw [h]; decide⟩, by rw [h]; decide,
      fun sess insp => rfl⟩

/-- Witness for C2: backend "s" has `args` but no `command`; selecting it
yields parameters None with both error messages displayed. -/
theorem C2_missing_field_disables_witness :
    (main_select_server_params [("s", ServerConfig.mk none (some []) none)] "s").1
        = none ∧
    (∃ f, Msg.error ("Missing required field in server configuration: " ++ f)
            ∈ (main_select_server_params
                [("s", ServerConfig.mk none (some []) none)] "s").2) ∧
    Msg.error "Server configuration error: Invalid server configuration"
      ∈ (main_select_server_params
          [("s", ServerConfig.mk none (some []) none)] "s").2 ∧
    ∀ sess insp, init_session_safely none sess insp = [] :=
  C2_missing_field_disables [("s", ServerConfig.mk none (some []) none)] "s"
    (ServerConfig.mk none (some []) none) (by decide) (by decide) (by decide)
    (Or.inl rfl)

/-- C6 as stated is false: `load_mcp_config` terminates the script in three
distinct cases, not two — missing file, invalid JSON, and missing
'mcpServers' key — each with its own error message. -/
theorem C6_counterexample :
    stops ConfigFile.missing = true ∧
    stops (ConfigFile.invalidJson "x") = true ∧
    stops (ConfigFile.valid (ConfigDoc.mk none)) = true ∧
    load_mcp_config ConfigFile.missing ≠
      load_mcp_config (ConfigFile.invalidJson "x") ∧
    load_mcp_config ConfigFile.missing ≠
      load_mcp_config (ConfigFile.valid (ConfigDoc.mk none)) ∧
    load_mcp_config (ConfigFile.invalidJson "x") ≠
      load_mcp_config (ConfigFile.valid (ConfigDoc.mk none)) := by
  refine ⟨rfl, rfl, rfl, ?_, ?_, ?_⟩ <;> decide

/-- Counts of the five call kinds across the two context-manager sides of
`get_mcp_session`: at most one initialization call and no listing or
generation calls, whatever the outcomes. -/
theorem get_mcp_session_call_counts (sp : Option StdioServerParameters)
    (sess : SessionOracle) :
    (get_mcp_session sp sess).1.countP isInitCallEvent +
        (get_mcp_session sp sess).2.2.countP isInitCallEvent ≤ 1 ∧
    (get_mcp_session sp sess).1.countP isListPromptsEvent +
        (get_mcp_session sp sess).2.2.countP isListPromptsEvent = 0 ∧
    (get_mcp_session sp sess).1.countP isListResourcesEvent +
        (get_mcp_session sp sess).2.2.countP isListResourcesEvent = 0 ∧
    (get_mcp_session sp sess).1.countP isListToolsEvent +
        (get_mcp_session sp sess).2.2.countP isListToolsEvent = 0 ∧
    (get_mcp_session sp sess).1.countP isGenerateEvent +
        (get_mcp_session sp sess).2.2.countP isGenerateEvent = 0 := by
  rcases sp with _ | p
  · simp [get_mcp_session]
  · obtain ⟨o1, o2⟩ := sess
    rcases o1 with _ | _ | e <;> rcases o2 with _ | _ | e2 <;>
      simp [get_mcp_session, isInitCallEvent, isListPromptsEvent,
        isListResourcesEvent, isListToolsEvent, isGenerateEvent,
        List.countP_cons]

/-- Call counts of the prompts section: one prompt-listing call, nothing
else. -/
theorem inspect_prompts_counts (o : ListOutcome) :
    (inspect_prompts o).countP isInitCallEvent = 0 ∧
    (inspect_prompts o).countP isListPromptsEvent = 1 ∧
    (inspect_prompts o).countP isListResourcesEvent = 0 ∧
    (inspect_prompts o).countP isListToolsEvent = 0 ∧
    (inspect_prompts o).countP isGenerateEvent = 0 := by
  rcases o with items | _ | e
  · by_cases h : items.isEmpty <;>
      simp [inspect_prompts, h, List.countP_cons, isInitCallEvent,
        isListPromptsEvent, isListResourcesEvent, isListToolsEvent,
        isGenerateEvent]
  · simp [inspect_prompts, List.countP_cons, isInitCallEvent,
      isListPromptsEvent, isListResourcesEvent, isListToolsEvent,
      isGenerateEvent]
  · simp [inspect_prompts, List.countP_cons, isInitCallEvent,
      isListPromptsEvent, isListResourcesEvent, isListToolsEvent,
      isGenerateEvent]

/-- Call counts of the resources section: one resource-listing call, nothing
else. -/
theorem inspect_resources_counts (o : ListOutcome) :
    (inspect_resources o).countP isInitCallEvent = 0 ∧
    (inspect_resources o).countP isListPromptsEvent = 0 ∧
    (inspect_resources o).countP isListResourcesEvent = 1 ∧
    (inspect_resources o).countP isListToolsEvent = 0 ∧
    (inspect_resources o).countP isGenerateEvent = 0 := by
  rcases o with items | _ | e
  · by_cases h : items.isEmpty <;>
      simp [inspect_resources, h, List.countP_cons, isInitCallEvent,
        isListPromptsEvent, isListResourcesEvent, isListToolsEvent,
        isGenerateEvent]
  · simp [inspect_resources, List.countP_cons, isInitCallEvent,
      isListPromptsEvent, isListResourcesEvent, isListToolsEvent,
      isGenerateEvent]
  · simp [inspect_resources, List.countP_cons, isInitCallEvent,
      isListPromptsEvent, isListResourcesEvent, isListToolsEvent,
      isGenerateEvent]

/-- Call counts of the tools section: one tool-listing call, nothing else. -/
theorem inspect_tools_counts (o : ListOutcome) :
    (inspect_tools o).countP isInitCallEvent = 0 ∧
    (inspect_tools o).countP isListPromptsEvent = 0 ∧
    (inspect_tools o).countP isListResourcesEvent = 0 ∧
    (inspect_tools o).countP isListToolsEvent = 1 ∧
    (inspect_tools o).countP isGenerateEvent = 0 := by
  rcases o with items | _ | e
  · by_cases h : items.isEmpty <;>
      simp [inspect_tools, h, List.countP_cons, isInitCallEvent,
        isListPromptsEvent, isListResourcesEvent, isListToolsEvent,
        isGenerateEvent]
  · simp [inspect_tools, List.countP_cons, isInitCallEvent,
      isListPromptsEvent, isListResourcesEvent, isListToolsEvent,
      isGenerateEvent]
  · simp [inspect_tools, List.countP_cons, isInitCallEvent,
      isListPromptsEvent, isListResourcesEvent, isListToolsEvent,
      isGenerateEvent]

/-- Call counts of a full inspection: one call of each listing kind, no
initialization or generation calls. -/
theorem safe_inspect_server_counts (insp : InspectOracle) :
    (safe_inspect_server insp).countP isInitCallEvent = 0 ∧
    (safe_inspect_server insp).countP isListPromptsEvent = 1 ∧
    (safe_inspect_server insp).countP isListResourcesEvent = 1 ∧
    (safe_inspect_server insp).countP isListToolsEvent = 1 ∧
    (safe_inspect_server insp).countP isGenerateEvent = 0 := by
  obtain ⟨p1, p2, p3, p4, p5⟩ := inspect_prompts_counts insp.promptsOutcome
  obtain ⟨r1, r2, r3, r4, r5⟩ := inspect_resources_counts insp.resourcesOutcome
  obtain ⟨t1, t2, t3, t4, t5⟩ := inspect_tools_counts insp.toolsOutcome
  simp only [safe_inspect_server, List.countP_append]
  omega

/-- Session setup never retries: each awaited call occurs at most once per
run, whatever the outcomes. -/
theorem noRetry_init_session (sp : Option StdioServerParameters)
    (sess : SessionOracle) (insp : InspectOracle) :
    noRetry (init_session_safely sp sess insp) := by
  rcases sp with _ | p
  · exact ⟨Nat.zero_le 1, Nat.zero_le 1, Nat.zero_le 1, Nat.zero_le 1,
      Nat.zero_le 1⟩
  · obtain ⟨c1, c2, c3, c4, c5⟩ := get_mcp_session_call_counts (some p) sess
    unfold noRetry
    rcases hs : (get_mcp_session (some p) sess).2.1 with _ | s
    · refine ⟨?_, ?_, ?_, ?_, ?_⟩ <;>
        · simp only [init_session_safely, hs, List.countP_append,
            List.countP_nil]
          omega
    · obtain ⟨s1, s2, s3, s4, s5⟩ := safe_inspect_server_counts insp
      refine ⟨?_, ?_, ?_, ?_, ?_⟩ <;>
        · simp only [init_session_safely, hs, List.countP_append]
          omega

/-- Message sending never retries: one generation call and no other awaited
call is repeated, whatever the outcomes. -/
theorem noRetry_send (prompt : String) (sp : Option StdioServerParameters)
    (messages : List ChatMessage) (sess : SessionOracle) (gen : GenOutcome) :
    noRetry (send_message_with_mcp prompt sp messages sess gen).1 := by
  obtain ⟨c1, c2, c3, c4, c5⟩ := get_mcp_session_call_counts sp sess
  unfold noRetry
  rcases gen with t | _ | e
  · rcases t with _ | text
    · refine ⟨?_, ?_, ?_, ?_, ?_⟩ <;>
        · simp [send_message_with_mcp, List.countP_append,
            List.countP_cons, List.countP_nil, isInitCallEvent,
            isListPromptsEvent, isListResourcesEvent, isListToolsEvent,
            isGenerateEvent]
          omega
    · by_cases h : text = ""
      · refine ⟨?_, ?_, ?_, ?_, ?_⟩ <;>
          · simp [send_message_with_mcp, h,
              List.countP_append, List.countP_cons, List.countP_nil,
              isInitCallEvent, isListPromptsEvent, isListResourcesEvent,
              isListToolsEvent, isGenerateEvent]
            omega
      · refine ⟨?_, ?_, ?_, ?_, ?_⟩ <;>
          · simp [send_message_with_mcp, h, List.countP_append,
              List.countP_cons, List.countP_nil, isInitCallEvent,
              isListPromptsEvent, isListResourcesEvent, isListToolsEvent,
              isGenerateEvent]
            omega
  · refine ⟨?_, ?_, ?_, ?_, ?_⟩ <;>
      · simp [send_message_with_mcp, List.countP_append,
          List.countP_cons, List.countP_nil, isInitCallEvent,
          isListPromptsEvent, isListResourcesEvent, isListToolsEvent,
          isGenerateEvent]
        omega
  · refine ⟨?_, ?_, ?_, ?_, ?_⟩ <;>
      · simp [send_message_with_mcp, List.countP_append,
          List.countP_cons, List.countP_nil, isInitCallEvent,
          isListPromptsEvent, isListResourcesEvent, isListToolsEvent,
          isGenerateEvent]
        omega

/-- C6 (amended): every modelled failure is caught at the library call and
surfaced as a user-visible message — every stopping load failure displays an
error, a failed connection/initialization yields no session and displays an
error, a failed capability listing displays a warning, and a failed or falsy
generation displays an error or warning; nothing is retried (each awaited
call occurs at most once per run); and the script is terminated (`st.stop`)
in exactly three cases, all during configuration loading: missing config
file, invalid JSON, and a parsed document without the 'mcpServers' key. -/
theorem C6_stop_cases :
    (∀ cf : ConfigFile, stops cf = true ↔
      (cf = ConfigFile.missing ∨ (∃ e, cf = ConfigFile.invalidJson e) ∨
       (∃ doc, cf = ConfigFile.valid doc ∧ doc.mcpServers = none))) ∧
    (∀ cf, stops cf = true →
      ∃ msgs, load_mcp_config cf = LoadResult.stopped msgs ∧
        ∃ t, Msg.error t ∈ msgs) ∧
    (∀ (p : StdioServerParameters) (sess : SessionOracle),
      (sess.openOutcome ≠ StepOutcome.ok ∨ sess.initOutcome ≠ StepOutcome.ok) →
      (get_mcp_session (some p) sess).2.1 = none ∧
      ∃ t, Event.display (Msg.error t) ∈ (get_mcp_session (some p) sess).1) ∧
    (∀ o : ListOutcome, o.failed = true →
      (∃ t, Event.display (Msg.warning t) ∈ inspect_prompts o) ∧
      (∃ t, Event.display (Msg.warning t) ∈ inspect_resources o) ∧
      (∃ t, Event.display (Msg.warning t) ∈ inspect_tools o)) ∧
    (∀ prompt sp messages sess gen, genSucceeds gen = false →
      ∃ t, Event.display (Msg.error t)
            ∈ (send_message_with_mcp prompt sp messages sess gen).1 ∨
          Event.display (Msg.warning t)
            ∈ (send_message_with_mcp prompt sp messages sess gen).1) ∧
    (∀ sp sess insp, noRetry (init_session_safely sp sess insp)) ∧
    (∀ prompt sp messages sess gen,
      noRetry (send_message_with_mcp prompt sp messages sess gen).1) := by
  refine ⟨?_, ?_, ?_, ?_, ?_, noRetry_init_session, noRetry_send⟩
  · intro cf
    cases cf with
    | missing => simp [stops, load_mcp_config]
    | invalidJson e => simp [stops, load_mcp_config]
    | valid doc =>
      rcases h : doc.mcpServers with _ | m <;>
        simp [stops, load_mcp_config, h]
  · intro cf h
    rcases cf with _ | e | doc
    · exact ⟨[Msg.error "Config file not found: mcp.json"], rfl,
        "Config file not found: mcp.json", by simp⟩
    · exact ⟨[Msg.error ("Invalid JSON format: " ++ e)], rfl,
        "Invalid JSON format: " ++ e, by simp⟩
    · rcases hm : doc.mcpServers with _ | m
      · refine ⟨[Msg.error
            "Configuration file error: Config file does not contain 'mcpServers' key."],
          ?_,
          "Configuration file error: Config file does not contain 'mcpServers' key.",
          by simp⟩
        simp [load_mcp_config, hm]
      · exfalso
        simp [stops, load_mcp_config, hm] at h
  · intro p sess h
    obtain ⟨o1, o2⟩ := sess
    rcases o1 with _ | _ | e
    · rcases o2 with _ | _ | e2
      · exfalso
        rcases h with h | h <;> exact h rfl
      · exact ⟨rfl, "MCP server connection timed out", by simp [get_mcp_session]⟩
      · exact ⟨rfl, "Failed to connect to MCP server: " ++ e2,
          by simp [get_mcp_session]⟩
    · exact ⟨rfl, "MCP server connection timed out", by simp [get_mcp_session]⟩
    · exact ⟨rfl, "Failed to connect to MCP server: " ++ e,
        by simp [get_mcp_session]⟩
  · intro o h
    rcases o with items | _ | e
    · exact absurd h (by simp [ListOutcome.failed])
    · exact ⟨⟨"Prompt list request timed out", by simp [inspect_prompts]⟩,
        ⟨"Resource list request timed out", by simp [inspect_resources]⟩,
        ⟨"Tool list request timed out", by simp [inspect_tools]⟩⟩
    · exact ⟨⟨"Unable to fetch prompt list: " ++ e, by simp [inspect_prompts]⟩,
        ⟨"Unable to fetch resource list: " ++ e, by simp [inspect_resources]⟩,
        ⟨"Unable to fetch tool list: " ++ e, by simp [inspect_tools]⟩⟩
  · intro prompt sp messages sess gen h
    rcases gen with t | _ | e
    · rcases t with _ | text
      · exact ⟨"Received empty response.",
          Or.inr (by simp [send_message_with_mcp])⟩
      · have htext : text = "" := by simpa [genSucceeds] using h
        exact ⟨"Received empty response.",
          Or.inr (by simp [send_message_with_mcp, htext])⟩
    · exact ⟨"Response generation timed out.",
        Or.inl (by simp [send_message_with_mcp])⟩
    · exact ⟨"Error occurred while sending message: " ++ e,
        Or.inl (by simp [send_message_with_mcp])⟩

/-- Witness for C6 at concrete failing inputs: the missing-file stop displays
an error; a timed-out initialization yields no session and displays an error
without stopping; a timed-out prompt listing displays a warning; and a run
with every listing failing retries nothing. -/
theorem C6_stop_cases_witness :
    stops ConfigFile.missing = true ∧
    (∃ msgs, load_mcp_config ConfigFile.missing = LoadResult.stopped msgs ∧
      ∃ t, Msg.error t ∈ msgs) ∧
    ((get_mcp_session (some (StdioServerParameters.mk "c" [] none))
        (SessionOracle.mk StepOutcome.ok StepOutcome.timeout)).2.1 = none ∧
      ∃ t, Event.display (Msg.error t) ∈
        (get_mcp_session (some (StdioServerParameters.mk "c" [] none))
          (SessionOracle.mk StepOutcome.ok StepOutcome.timeout)).1) ∧
    (∃ t, Event.display (Msg.warning t) ∈ inspect_prompts ListOutcome.timeout) ∧
    noRetry (init_session_safely (some (StdioServerParameters.mk "c" [] none))
      (SessionOracle.mk StepOutcome.ok StepOutcome.ok)
      (InspectOracle.mk ListOutcome.timeout ListOutcome.timeout
        ListOutcome.timeout)) :=
  ⟨(C6_stop_cases.1 ConfigFile.missing).2 (Or.inl rfl),
   C6_stop_cases.2.1 ConfigFile.missing rfl,
   C6_stop_cases.2.2.1 (StdioServerParameters.mk "c" [] none)
     (SessionOracle.mk StepOutcome.ok StepOutcome.timeout)
     (Or.inr (by decide)),
   (C6_stop_cases.2.2.2.1 ListOutcome.timeout rfl).1,
   C6_stop_cases.2.2.2.2.2.1 (some (StdioServerParameters.mk "c" [] none))
     (SessionOracle.mk StepOutcome.ok StepOutcome.ok)
     (InspectOracle.mk ListOutcome.timeout ListOutcome.timeout
       ListOutcome.timeout)⟩

/-- C3: whenever the connection opens but initialization times out under the
10s limit, `get_mcp_session` yields None (no exception escapes: the function
is total) and displays the connection-timeout error. -/
theorem C3_init_timeout_yields_none (p : StdioServerParameters)
    (sess : SessionOracle) (h1 : sess.openOutcome = StepOutcome.ok)
    (h2 : sess.initOutcome = StepOutcome.timeout) :
    (get_mcp_session (some p) sess).2.1 = none ∧
    Event.display (Msg.error "MCP server connection timed out")
      ∈ (get_mcp_session (some p) sess).1 := by
  obtain ⟨o1, o2⟩ := sess
  dsimp only at h1 h2
  subst h1
  subst h2
  constructor
  · rfl
  · simp [get_mcp_session]

/-- Witness for C3 at a concrete parameter set and oracle. -/
theorem C3_init_timeout_yields_none_witness :
    (get_mcp_session (some (StdioServerParameters.mk "c" [] none))
        (SessionOracle.mk StepOutcome.ok StepOutcome.timeout)).2.1 = none ∧
    Event.display (Msg.error "MCP server connection timed out")
      ∈ (get_mcp_session (some (StdioServerParameters.mk "c" [] none))
          (SessionOracle.mk StepOutcome.ok StepOutcome.timeout)).1 :=
  C3_init_timeout_yields_none (StdioServerParameters.mk "c" [] none)
    (SessionOracle.mk StepOutcome.ok StepOutcome.timeout) rfl rfl

/-- C4: at the concrete input (empty prior transcript, prompt "hi", no
server), the generate API receives the new user turn twice — `main` appends
the turn to the stored transcript before `send_message_with_mcp` rebuilds
`contents` from that same transcript and appends the prompt again.  The
transcript itself ends correctly as [user, assistant]. -/
theorem C4_generate_receives_duplicate_turn :
    main_handle_input "hi" none []
        (SessionOracle.mk StepOutcome.ok StepOutcome.ok)
        (GenOutcome.ok (some "ok")) =
      ([Event.generate 30
          [Content.mk "user" "hi", Content.mk "user" "hi"] none,
        Event.display (Msg.markdown "ok")],
       [ChatMessage.mk "user" "hi", ChatMessage.mk "assistant" "ok"]) := by
  decide

/-- Every event of the prompts section carries its fixed timeout. -/
theorem inspect_prompts_timeouts (o : ListOutcome) :
    (inspect_prompts o).all eventTimeoutOk = true := by
  rcases o with items | _ | e
  · by_cases h : items.isEmpty <;> simp [inspect_prompts, eventTimeoutOk, h]
  · simp [inspect_prompts, eventTimeoutOk]
  · simp [inspect_prompts, eventTimeoutOk]

/-- Every event of the resources section carries its fixed timeout. -/
theorem inspect_resources_timeouts (o : ListOutcome) :
    (inspect_resources o).all eventTimeoutOk = true := by
  rcases o with items | _ | e
  · by_cases h : items.isEmpty <;> simp [inspect_resources, eventTimeoutOk, h]
  · simp [inspect_resources, eventTimeoutOk]
  · simp [inspect_resources, eventTimeoutOk]

/-- Every event of the tools section carries its fixed timeout. -/
theorem inspect_tools_timeouts (o : ListOutcome) :
    (inspect_tools o).all eventTimeoutOk = true := by
  rcases o with items | _ | e
  · by_cases h : items.isEmpty <;> simp [inspect_tools, eventTimeoutOk, h]
  · simp [inspect_tools, eventTimeoutOk]
  · simp [inspect_tools, eventTimeoutOk]

/-- Every event of a full server inspection carries its fixed timeout. -/
theorem safe_inspect_server_timeouts (insp : InspectOracle) :
    (safe_inspect_server insp).all eventTimeoutOk = true := by
  simp [safe_inspect_server, List.all_append, inspect_prompts_timeouts,
    inspect_resources_timeouts, inspect_tools_timeouts]

/-- Every event on both sides of the session context manager carries its
fixed timeout. -/
theorem get_mcp_session_timeouts (sp : Option StdioServerParameters)
    (sess : SessionOracle) :
    (get_mcp_session sp sess).1.all eventTimeoutOk = true ∧
    (get_mcp_session sp sess).2.2.all eventTimeoutOk = true := by
  rcases sp with _ | p
  · exact ⟨rfl, rfl⟩
  · obtain ⟨o1, o2⟩ := sess
    rcases o1 with _ | _ | e <;> rcases o2 with _ | _ | e2 <;>
      simp [get_mcp_session, eventTimeoutOk]

/-- The prompts section performs exactly its one listing call. -/
theorem inspect_prompts_calls (o : ListOutcome) :
    (inspect_prompts o).filter isCall = [Event.listPrompts 5] := by
  rcases o with items | _ | e
  · by_cases h : items.isEmpty <;> simp [inspect_prompts, isCall, h]
  · simp [inspect_prompts, isCall]
  · simp [inspect_prompts, isCall]

/-- The resources section performs exactly its one listing call. -/
theorem inspect_resources_calls (o : ListOutcome) :
    (inspect_resources o).filter isCall = [Event.listResources 5] := by
  rcases o with items | _ | e
  · by_cases h : items.isEmpty <;> simp [inspect_resources, isCall, h]
  · simp [inspect_resources, isCall]
  · simp [inspect_resources, isCall]

/-- The tools section performs exactly its one listing call. -/
theorem inspect_tools_calls (o : ListOutcome) :
    (inspect_tools o).filter isCall = [Event.listTools 5] := by
  rcases o with items | _ | e
  · by_cases h : items.isEmpty <;> simp [inspect_tools, isCall, h]
  · simp [inspect_tools, isCall]
  · simp [inspect_tools, isCall]

/-- Whatever each listing's outcome, a full inspection performs exactly the
three listing calls in order. -/
theorem safe_inspect_server_calls (insp : InspectOracle) :
    (safe_inspect_server insp).filter isCall =
      [Event.listPrompts 5, Event.listResources 5, Event.listTools 5] := by
  simp [safe_inspect_server, List.filter_append, inspect_prompts_calls,
    inspect_resources_calls, inspect_tools_calls]

/-- C7: when the connection opens and initialization succeeds, session setup
performs exactly this call sequence: open the connection and session, await
initialization under its timeout, then the three listing calls in order
prompts, resources, tools (each under its timeout, and performed regardless
of the other listings' outcomes, since `insp` is arbitrary), then close the
session and the connection on scope exit. -/
theorem C7_session_setup_sequence (p : StdioServerParameters)
    (sess : SessionOracle) (insp : InspectOracle)
    (h1 : sess.openOutcome = StepOutcome.ok)
    (h2 : sess.initOutcome = StepOutcome.ok) :
    (init_session_safely (some p) sess insp).filter isCall =
      [Event.openConnection, Event.openSession, Event.initCall 10,
       Event.listPrompts 5, Event.listResources 5, Event.listTools 5,
       Event.closeSession, Event.closeConnection] := by
  obtain ⟨o1, o2⟩ := sess
  dsimp only at h1 h2
  subst h1
  subst h2
  simp [init_session_safely, get_mcp_session, List.filter_append,
    safe_inspect_server_calls, isCall]

/-- Witness for C7: concrete parameters with two of the three listings
failing; the call sequence is still complete and in order. -/
theorem C7_session_setup_sequence_witness :
    (init_session_safely (some (StdioServerParameters.mk "c" [] none))
        (SessionOracle.mk StepOutcome.ok StepOutcome.ok)
        (InspectOracle.mk ListOutcome.timeout (ListOutcome.exn "boom")
          (ListOutcome.ok []))).filter isCall =
      [Event.openConnection, Event.openSession, Event.initCall 10,
       Event.listPrompts 5, Event.listResources 5, Event.listTools 5,
       Event.closeSession, Event.closeConnection] :=
  C7_session_setup_sequence (StdioServerParameters.mk "c" [] none)
    (SessionOracle.mk StepOutcome.ok StepOutcome.ok)
    (InspectOracle.mk ListOutcome.timeout (ListOutcome.exn "boom")
      (ListOutcome.ok [])) rfl rfl

/-- Every event of a safe session setup carries its fixed timeout, whatever
the outcomes. -/
theorem init_session_safely_timeouts (sp : Option StdioServerParameters)
    (sess : SessionOracle) (insp : InspectOracle) :
    (init_session_safely sp sess insp).all eventTimeoutOk = true := by
  rcases sp with _ | p
  · rfl
  · obtain ⟨hpre, hpost⟩ := get_mcp_session_timeouts (some p) sess
    rcases hs : (get_mcp_session (some p) sess).2.1 with _ | s <;>
      simp [init_session_safely, List.all_append, hpre, hpost, hs,
        safe_inspect_server_timeouts]

/-- Every event of a message send carries its fixed timeout, whatever the
outcomes. -/
theorem send_message_with_mcp_timeouts (prompt : String)
    (sp : Option StdioServerParameters) (messages : List ChatMessage)
    (sess : SessionOracle) (gen : GenOutcome) :
    ((send_message_with_mcp prompt sp messages sess gen).1.all eventTimeoutOk)
      = true := by
  obtain ⟨hpre, hpost⟩ := get_mcp_session_timeouts sp sess
  rcases gen with t | _ | e
  · rcases t with _ | text
    · simp [send_message_with_mcp, List.all_append, hpre, hpost, eventTimeoutOk]
    · by_cases h : text = "" <;>
        simp [send_message_with_mcp, List.all_append, hpre, hpost,
          eventTimeoutOk, h]
  · simp [send_message_with_mcp, List.all_append, hpre, hpost, eventTimeoutOk]
  · simp [send_message_with_mcp, List.all_append, hpre, hpost, eventTimeoutOk]

/-- C5: every blocking call uses its assigned fixed timeout — in every trace
of session setup and message sending, initialization events carry 10s, each
capability-listing event 5s, and generation events 30s; and on concrete runs
each of those calls does occur with that timeout. -/
theorem C5_fixed_timeouts :
    (∀ sp sess insp,
        (init_session_safely sp sess insp).all eventTimeoutOk = true) ∧
    (∀ prompt sp messages sess gen,
        ((send_message_with_mcp prompt sp messages sess gen).1.all
          eventTimeoutOk) = true) ∧
    Event.initCall 10 ∈ init_session_safely
      (some (StdioServerParameters.mk "c" [] none))
      (SessionOracle.mk StepOutcome.ok StepOutcome.ok)
      (InspectOracle.mk (ListOutcome.ok []) (ListOutcome.ok [])
        (ListOutcome.ok [])) ∧
    Event.listPrompts 5 ∈ init_session_safely
      (some (StdioServerParameters.mk "c" [] none))
      (SessionOracle.mk StepOutcome.ok StepOutcome.ok)
      (InspectOracle.mk (ListOutcome.ok []) (ListOutcome.ok [])
        (ListOutcome.ok [])) ∧
    Event.listResources 5 ∈ init_session_safely
      (some (StdioServerParameters.mk "c" [] none))
      (SessionOracle.mk StepOutcome.ok StepOutcome.ok)
      (InspectOracle.mk (ListOutcome.ok []) (ListOutcome.ok [])
        (ListOutcome.ok [])) ∧
    Event.listTools 5 ∈ init_session_safely
      (some (StdioServerParameters.mk "c" [] none))
      (SessionOracle.mk StepOutcome.ok StepOutcome.ok)
      (InspectOracle.mk (ListOutcome.ok []) (ListOutcome.ok [])
        (ListOutcome.ok [])) ∧
    Event.generate 30 [Content.mk "user" "hi"] none ∈
      (send_message_with_mcp "hi" none []
        (SessionOracle.mk StepOutcome.ok StepOutcome.ok)
        GenOutcome.timeout).1 := by
  refine ⟨init_session_safely_timeouts, send_message_with_mcp_timeouts,
    ?_, ?_, ?_, ?_, ?_⟩ <;> decide

/-- C8: a parsed document is accepted exactly when the top-level 'mcpServers'
key is present, and its absence stops with a configuration error; per server
object, parameters are created exactly when both 'command' and 'args' are
present, with 'env' passed through and defaulting to absent. -/
theorem C8_config_shape :
    (∀ doc : ConfigDoc, (∃ m, doc.mcpServers = some m) →
        load_mcp_config (ConfigFile.valid doc) = LoadResult.ok doc) ∧
    (∀ doc : ConfigDoc, doc.mcpServers = none →
        load_mcp_config (ConfigFile.valid doc) = LoadResult.stopped
          [Msg.error "Configuration file error: Config file does not contain 'mcpServers' key."]) ∧
    (∀ cfg : ServerConfig,
        (∃ p, (create_server_parameters cfg).1 = Except.ok p) ↔
          (cfg.command.isSome = true ∧ cfg.args.isSome = true)) ∧
    (∀ c a, (create_server_parameters (ServerConfig.mk (some c) (some a) none)).1
        = Except.ok (StdioServerParameters.mk c a none)) ∧
    (∀ c a e,
        (create_server_parameters (ServerConfig.mk (some c) (some a) (some e))).1
          = Except.ok (StdioServerParameters.mk c a (some e))) := by
  refine ⟨?_, ?_, ?_, fun c a => rfl, fun c a e => rfl⟩
  · rintro doc ⟨m, hm⟩
    simp [load_mcp_config, hm]
  · intro doc hm
    simp [load_mcp_config, hm]
  · intro cfg
    rcases hc : cfg.command with _ | c <;> rcases ha : cfg.args with _ | a <;>
      simp [create_server_parameters, validate_server_config, hc, ha]

/-- Witness for C8: a document with an (empty) mapping is accepted, and a
config with both required fields yields parameters. -/
theorem C8_config_shape_witness :
    load_mcp_config (ConfigFile.valid (ConfigDoc.mk (some []))) =
      LoadResult.ok (ConfigDoc.mk (some [])) ∧
    (∃ p, (create_server_parameters (ServerConfig.mk (some "c") (some []) none)).1
        = Except.ok p) :=
  ⟨C8_config_shape.1 (ConfigDoc.mk (some [])) ⟨[], rfl⟩,
   (C8_config_shape.2.2.1 (ServerConfig.mk (some "c") (some []) none)).2
     ⟨rfl, rfl⟩⟩

/-- C9: the message is always sent to the model — when the session is None
(no server selected, or the connection failed), the generate call is made
with no tool configuration; tools are set (to the single session) only when a
session was yielded. -/
theorem C9_sends_without_session (prompt : String)
    (sp : Option StdioServerParameters) (messages : List ChatMessage)
    (sess : SessionOracle) (gen : GenOutcome) :
    ((get_mcp_session sp sess).2.1 = none →
      Event.generate 30 (build_contents messages prompt) none
        ∈ (send_message_with_mcp prompt sp messages sess gen).1) ∧
    (∀ s, (get_mcp_session sp sess).2.1 = some s →
      Event.generate 30 (build_contents messages prompt) (some [s])
        ∈ (send_message_with_mcp prompt sp messages sess gen).1) := by
  constructor
  · intro h
    rcases gen with t | _ | e
    · rcases t with _ | text
      · simp [send_message_with_mcp, h]
      · by_cases he : text = "" <;> simp [send_message_with_mcp, h, he]
    · simp [send_message_with_mcp, h]
    · simp [send_message_with_mcp, h]
  · intro s h
    rcases gen with t | _ | e
    · rcases t with _ | text
      · simp [send_message_with_mcp, h]
      · by_cases he : text = "" <;> simp [send_message_with_mcp, h, he]
    · simp [send_message_with_mcp, h]
    · simp [send_message_with_mcp, h]

/-- Witness for C9: with no server selected the generation timeout path still
contains a generate call with no tools. -/
theorem C9_sends_without_session_witness :
    Event.generate 30 (build_contents [] "hi") none ∈
      (send_message_with_mcp "hi" none []
        (SessionOracle.mk StepOutcome.ok StepOutcome.ok)
        GenOutcome.timeout).1 :=
  (C9_sends_without_session "hi" none []
    (SessionOracle.mk StepOutcome.ok StepOutcome.ok) GenOutcome.timeout).1 rfl

/-- C10: whenever generation does not succeed (timeout, exception, or a falsy
response/text), the transcript is returned unchanged; through the `main`
handler it therefore ends with exactly the new user turn appended. -/
theorem C10_failure_keeps_transcript (prompt : String)
    (sp : Option StdioServerParameters) (messages : List ChatMessage)
    (sess : SessionOracle) (gen : GenOutcome)
    (h : genSucceeds gen = false) :
    (send_message_with_mcp prompt sp messages sess gen).2 = messages ∧
    (main_handle_input prompt sp messages sess gen).2 =
      messages ++ [ChatMessage.mk "user" prompt] := by
  have hsend : ∀ msgs : List ChatMessage,
      (send_message_with_mcp prompt sp msgs sess gen).2 = msgs := by
    intro msgs
    rcases gen with t | _ | e
    · rcases t with _ | text
      · rfl
      · have htext : text = "" := by simpa [genSucceeds] using h
        simp [send_message_with_mcp, htext]
    · rfl
    · rfl
  exact ⟨hsend messages, hsend (messages ++ [ChatMessage.mk "user" prompt])⟩

/-- Witness for C10 on a concrete timed-out generation. -/
theorem C10_failure_keeps_transcript_witness :
    (send_message_with_mcp "hi" none [ChatMessage.mk "user" "a"]
        (SessionOracle.mk StepOutcome.ok StepOutcome.ok)
        GenOutcome.timeout).2 = [ChatMessage.mk "user" "a"] ∧
    (main_handle_input "hi" none [ChatMessage.mk "user" "a"]
        (SessionOracle.mk StepOutcome.ok StepOutcome.ok)
        GenOutcome.timeout).2 =
      [ChatMessage.mk "user" "a"] ++ [ChatMessage.mk "user" "hi"] :=
  C10_failure_keeps_transcript "hi" none [ChatMessage.mk "user" "a"]
    (SessionOracle.mk StepOutcome.ok StepOutcome.ok) GenOutcome.timeout rfl

end MCPChat
